import Mathlib

/-
Verification of deploy_testbed.py (caasp-bare-metal deployer).

The external world (BMM HTTP responses, power status reads, DHCP event
windows, syslog scans, SSH probes) is passed in as explicit data: a response
list, a status function, or a stream of per-round values. Raised Python
exceptions are modeled as Except.error; unbounded while-loops are modeled
with a fuel parameter, where returning none for every fuel value means the
loop never terminates.
-/

namespace DeployTestbed

/-- Server record as returned by the BMM hw/list and hw/lock endpoints,
with the fields read by fetch_servers_list. -/
structure RawServer where
  name : String
  serial : String
  ilo_ipaddr : String
  macaddr0 : String
  macaddr1 : String
deriving DecidableEq, Repr

/-- Server tuple (servername, serial, desc, ilo_ipaddr, ilo_iface_macaddr,
eth0_macaddr) built by fetch_servers_list at line 273 of deploy_testbed.py. -/
structure Srv where
  name : String
  serial : String
  desc : String
  ilo_ipaddr : String
  ilo_iface_macaddr : String
  eth0_macaddr : String
deriving DecidableEq, Repr

/-- Tuple construction of fetch_servers_list line 274: desc is always the
empty string. -/
def toSrv (s : RawServer) : Srv :=
  ⟨s.name, s.serial, "", s.ilo_ipaddr, s.macaddr0, s.macaddr1⟩

/-- fetch_servers_list (deploy_testbed.py lines 253-282). The first server is
the admin. The hw/list response is the argument initial; the hw/lock response,
consulted only when initial is empty, is the argument locked. The raise when
0 < len(initial) < num_servers and the assert want_admin or want_nodes are
modeled as Except.error. The length check is never applied to the freshly
locked list. -/
def fetch_servers_list (initial locked : List RawServer)
    (master_count worker_count : Nat) (want_admin want_nodes : Bool) :
    Except String (List Srv) :=
  match
    (if initial.length = 0 then Except.ok locked
     else if initial.length < 1 + master_count + worker_count then
       Except.error ("Only " ++ toString initial.length ++ " servers are locked")
     else Except.ok initial : Except String (List RawServer)) with
  | Except.error e => Except.error e
  | Except.ok servers =>
    if want_admin = false ∧ want_nodes = false then
      Except.error "AssertionError: want_admin or want_nodes"
    else if want_admin then
      if want_nodes then Except.ok (servers.map toSrv)
      else Except.ok ((servers.map toSrv).take 1)
    else Except.ok ((servers.map toSrv).drop 1)

/-- Available host tuple (servername, serial, eth0_macaddr, ipaddr) as
collected by wait_dhcp_acks (line 516). -/
structure AckHost where
  name : String
  serial : String
  macaddr : String
  ipaddr : String
deriving DecidableEq, Repr

/-- Set insertion as done by wait_dhcp_acks lines 517-520: if the tuple is
already present the set is unchanged, otherwise it is added. -/
def add_ack (avail : List AckHost) (h : AckHost) : List AckHost :=
  if h ∈ avail then avail else avail ++ [h]

/-- One polling round of wait_dhcp_acks (lines 510-520): for each server in
order, look up its eth0 mac address in the freshly fetched DHCP entries; a
KeyError means the server is skipped this round; a hit inserts the tuple
(servername, serial, eth0_macaddr, ipaddr) into the accumulated set. -/
def round_update (servers : List Srv) (entries : List (String × String))
    (avail : List AckHost) : List AckHost :=
  match servers with
  | [] => avail
  | s :: rest =>
    match entries.lookup s.eth0_macaddr with
    | none => round_update rest entries avail
    | some ip =>
        round_update rest entries
          (add_ack avail ⟨s.name, s.serial, s.eth0_macaddr, ip⟩)

/-- Accumulated available_hosts after n polling rounds of wait_dhcp_acks,
where rounds gives the DHCP entry window fetched in each round. -/
def acc_after (servers : List Srv) (rounds : Nat → List (String × String)) :
    Nat → List AckHost
  | 0 => []
  | n + 1 => round_update servers (rounds n) (acc_after servers rounds n)

/-- The while-loop of wait_dhcp_acks (lines 508-525), with fuel bounding the
number of rounds evaluated: after updating the set with the current DHCP
window, the loop breaks iff len(available_hosts) >= len(servers) - K;
otherwise it sleeps 30 seconds and polls again. -/
def wait_go (servers : List Srv) (rounds : Nat → List (String × String))
    (max_failing_nodes : Nat) : Nat → Nat → List AckHost → Option (List AckHost)
  | 0, _, _ => none
  | fuel + 1, i, avail =>
    if servers.length - max_failing_nodes ≤
        (round_update servers (rounds i) avail).length then
      some (round_update servers (rounds i) avail)
    else
      wait_go servers rounds max_failing_nodes fuel (i + 1)
        (round_update servers (rounds i) avail)

/-- wait_dhcp_acks (deploy_testbed.py lines 506-527): starts from the empty
set and round 0. -/
def wait_dhcp_acks (servers : List Srv) (rounds : Nat → List (String × String))
    (max_failing_nodes fuel : Nat) : Option (List AckHost) :=
  wait_go servers rounds max_failing_nodes fuel 0 []

/-- parse_dhcp_logs (lines 499-504): lower-case the mac address and look it up
in the fetched DHCP entries, returning None when absent. -/
def parse_dhcp_logs (entries : List (String × String)) (macaddr : String) :
    Option String :=
  entries.lookup macaddr.toLower

/-- A command sent to the hardware manager (RemoteHWManager, lines 309-325),
tagged with the iLO address it targets. -/
inductive PowerCmd where
  | powerOn (ilo_ipaddr : String)
  | powerOff (ilo_ipaddr : String)
  | setOneTimeNetworkBoot (ilo_ipaddr : String)
deriving DecidableEq, Repr

/-- The netboot arming round of deploy_nodes (lines 548-554): one
set_one_time_network_boot call per server; an exception from the call is
caught and only logged, so exactly one attempt is issued per server no matter
whether it fails. -/
def netboot_round (servers : List Srv) : List PowerCmd :=
  servers.map (fun s => PowerCmd.setOneTimeNetworkBoot s.ilo_ipaddr)

/-- The round at deploy_nodes lines 570-574, run after the power-on round:
for each server whose get_host_power_status() reads false the code logs
powering on again but issues power_off. The list returned is the trace of
hardware commands the round sends. -/
def power_on_again_round (servers : List Srv) (power_status : String → Bool) :
    List PowerCmd :=
  (servers.filter (fun s => !power_status s.ilo_ipaddr)).map
    (fun s => PowerCmd.powerOff s.ilo_ipaddr)

/-- not_powering_up_hosts_cnt as computed at deploy_nodes lines 581-588: the
number of servers whose power status still reads false. -/
def not_powering_up_count (servers : List Srv) (power_status : String → Bool) :
    Nat :=
  (servers.filter (fun s => !power_status s.ilo_ipaddr)).length

/-- The tolerance check of deploy_nodes lines 590-592: raise when the count of
hosts not powering up exceeds max_failing_nodes, with the message produced by
the format string at line 591. -/
def deploy_nodes_power_check (servers : List Srv) (power_status : String → Bool)
    (max_failing_nodes : Nat) : Except String Unit :=
  if max_failing_nodes < not_powering_up_count servers power_status then
    Except.error
      (toString (not_powering_up_count servers power_status)
        ++ " hosts not powering up")
  else Except.ok ()

/-- The decision logic of deploy_nodes (lines 581-595): the power-status
tolerance check followed, when it passes, by wait_dhcp_acks on the same
servers and tolerance. The earlier effect rounds (PXE upload, netboot arming,
power on) are reflected in the power_status and rounds inputs. -/
def deploy_nodes (servers : List Srv) (power_status : String → Bool)
    (rounds : Nat → List (String × String)) (max_failing_nodes fuel : Nat) :
    Except String (Option (List AckHost)) :=
  match deploy_nodes_power_check servers power_status max_failing_nodes with
  | Except.error e => Except.error e
  | Except.ok _ =>
      Except.ok (wait_dhcp_acks servers rounds max_failing_nodes fuel)

/-- power_off_nodes (lines 454-470): fetch the node list, power every node
off, then power off again every node whose power status still reads true.
When the fetch raised, the error propagates and no command is issued; on
success the value is the trace of power commands sent. -/
def power_off_nodes (fetched : Except String (List Srv))
    (power_status : String → Bool) : Except String (List PowerCmd) :=
  match fetched with
  | Except.error e => Except.error e
  | Except.ok servers =>
      Except.ok
        ((servers.map (fun s => PowerCmd.powerOff s.ilo_ipaddr)) ++
          ((servers.filter (fun s => power_status s.ilo_ipaddr)).map
            (fun s => PowerCmd.powerOff s.ilo_ipaddr)))

/-- The SSH wait loop of deploy_admin_node (lines 434-444), with fuel bounding
the number of rounds: each round first runs scan_syslog_logs; a non-empty
error field raises immediately with the line 438 message; only then is
probe_ssh_port consulted, breaking the loop when it returns open, else the
loop sleeps 10 seconds and repeats. The second component counts how many
probe_ssh_port calls were performed. -/
def ssh_wait (scan probe : Nat → String) :
    Nat → Nat → Option (Except String Unit) × Nat
  | 0, _ => (none, 0)
  | fuel + 1, i =>
    if scan i ≠ "" then
      (some (Except.error ("Error detected in syslog traffic: " ++ scan i)), 0)
    else if probe i = "open" then
      (some (Except.ok ()), 1)
    else
      ((ssh_wait scan probe fuel (i + 1)).1,
        (ssh_wait scan probe fuel (i + 1)).2 + 1)

/-- fetch_and_write_syslog_logs (lines 393-399): fetch the syslog from the
BMM and write it to disk. There is no exception handler, so a failure of
either step propagates to the caller. -/
def fetch_and_write_syslog_logs (fetched : Except String String)
    (writeFile : String → Except String Unit) : Except String Unit :=
  match fetched with
  | Except.error e => Except.error e
  | Except.ok logs => writeFile logs

/-- The tail of deploy_admin_node (lines 449-452): after the host became
reachable, fetch_and_write_syslog_logs is called with no handler, and only
afterwards is the resolved ipaddr returned. -/
def deploy_admin_node_finish (ipaddr : String)
    (fetched : Except String String)
    (writeFile : String → Except String Unit) : Except String String :=
  match fetch_and_write_syslog_logs fetched writeFile with
  | Except.error e => Except.error e
  | Except.ok _ => Except.ok ipaddr

/-- The per-host machine-id retry loop of generate_environment_json
(lines 647-658): while True, attempt fetch_machine_id; on success break with
the id; on APIError sleep 10 seconds and retry. Attempt i draws from the
lookup stream; fuel bounds how many attempts are evaluated. -/
def fetch_machine_id_retry (lookup : Nat → Except String String) :
    Nat → Nat → Option String
  | 0, _ => none
  | fuel + 1, i =>
    match lookup i with
    | Except.ok machine_id => some machine_id
    | Except.error _ => fetch_machine_id_retry lookup fuel (i + 1)

/-- The loop terminates when some amount of fuel suffices for it to return. -/
def fetch_machine_id_terminates (lookup : Nat → Except String String) : Prop :=
  ∃ fuel, (fetch_machine_id_retry lookup fuel 0).isSome

/-- Character-list prefix test, used to state what a message names. -/
def list_has_pre (pat s : List Char) : Bool :=
  match pat, s with
  | [], _ => true
  | _ :: _, [] => false
  | p :: ps, c :: cs => p == c && list_has_pre ps cs

/-- Character-list substring test. -/
def list_has_sub (pat s : List Char) : Bool :=
  match s with
  | [] => list_has_pre pat []
  | _ :: cs => list_has_pre pat s || list_has_sub pat cs

/-- String substring test: does s contain pat. -/
def str_has_sub (s pat : String) : Bool :=
  list_has_sub pat.data s.data

/-- Concrete server fixture alpha. -/
def srvA : Srv := ⟨"alpha", "sA", "", "10.0.0.1", "macA0", "mac1"⟩

/-- Concrete server fixture beta. -/
def srvB : Srv := ⟨"beta", "sB", "", "10.0.0.2", "macB0", "mac2"⟩

/-- Concrete server fixture gamma. -/
def srvC : Srv := ⟨"gamma", "sC", "", "10.0.0.3", "macC0", "mac3"⟩

/-- Concrete BMM response record for alpha. -/
def rawA : RawServer := ⟨"alpha", "sA", "10.0.0.1", "macA0", "mac1"⟩

/-- Concrete BMM response record for beta. -/
def rawB : RawServer := ⟨"beta", "sB", "10.0.0.2", "macB0", "mac2"⟩

/-- DHCP windows where mac1 is first bound to ip1 and from the second poll on
to ip2, while mac2 never appears. -/
def c7rounds : Nat → List (String × String)
  | 0 => [("mac1", "ip1")]
  | _ + 1 => [("mac1", "ip2")]

/-- DHCP windows that stay empty forever. -/
def rounds_empty : Nat → List (String × String) := fun _ => []

/-- Syslog scans that report an error excerpt in round 1 only. -/
def c3scan : Nat → String := fun j => if j = 1 then "kernel panic" else ""

/-- SSH probes that always report a closed port. -/
def c3probe : Nat → String := fun _ => "closed"

/-- A machine-id lookup that fails with an SSH-layer error on every attempt. -/
def failing_lookup : Nat → Except String String :=
  fun _ => Except.error "port 22: Connection timed out"

/-- A machine-id lookup that fails once and succeeds from attempt 1 on. -/
def flaky_lookup : Nat → Except String String :=
  fun j => if j = 0 then Except.error "port 22: No route to host"
    else Except.ok "mid-42"

/-- Membership in the available-hosts set is preserved by set insertion. -/
theorem mem_add_ack (avail : List AckHost) (g h : AckHost) (hm : h ∈ avail) :
    h ∈ add_ack avail g := by
  unfold add_ack
  split
  · exact hm
  · exact List.mem_append_left _ hm

/-- The inserted tuple is a member of the set after insertion. -/
theorem self_mem_add_ack (avail : List AckHost) (g : AckHost) :
    g ∈ add_ack avail g := by
  unfold add_ack
  split
  · assumption
  · exact List.mem_append_right _ (List.mem_singleton.mpr rfl)

/-- A polling round of wait_dhcp_acks never removes a tuple from the
available-hosts set. -/
theorem mem_round_update (servers : List Srv) (e : List (String × String))
    (avail : List AckHost) (h : AckHost) (hm : h ∈ avail) :
    h ∈ round_update servers e avail := by
  induction servers generalizing avail with
  | nil => exact hm
  | cons s rest ih =>
    simp only [round_update]
    split
    · exact ih avail hm
    · exact ih _ (mem_add_ack _ _ _ hm)

/-- A polling round of wait_dhcp_acks inserts the tuple of every server whose
eth0 mac address has an entry in the fetched DHCP window. -/
theorem round_update_adds (servers : List Srv) (e : List (String × String))
    (avail : List AckHost) (s : Srv) (ip : String)
    (hs : s ∈ servers) (hl : e.lookup s.eth0_macaddr = some ip) :
    (⟨s.name, s.serial, s.eth0_macaddr, ip⟩ : AckHost) ∈
      round_update servers e avail := by
  induction servers generalizing avail with
  | nil => cases hs
  | cons t rest ih =>
    rcases List.mem_cons.mp hs with heq | hmem
    · subst heq
      simp only [round_update, hl]
      exact mem_round_update _ _ _ _ (self_mem_add_ack _ _)
    · simp only [round_update]
      split
      · exact ih _ hmem
      · exact ih _ hmem

/-- When the wait_dhcp_acks loop breaks, the set it returns has reached the
threshold len(servers) - max_failing_nodes. -/
theorem wait_go_some_length (servers : List Srv)
    (rounds : Nat → List (String × String)) (max_failing_nodes : Nat) :
    ∀ fuel i avail acc,
      wait_go servers rounds max_failing_nodes fuel i avail = some acc →
      servers.length - max_failing_nodes ≤ acc.length := by
  intro fuel
  induction fuel with
  | zero =>
    intro i avail acc h
    exact absurd h (by simp [wait_go])
  | succ f ih =>
    intro i avail acc h
    simp only [wait_go] at h
    split at h
    · cases h
      assumption
    · exact ih _ _ _ h

/-- The ssh_wait loop run from index i fails at the k-th round from i when the
earlier rounds are clean and closed and round i+k scans an error: the result
carries the line 438 message built from that rounds excerpt, and exactly k
port probes were performed, none in the error round. -/
theorem ssh_wait_err (scan probe : Nat → String) :
    ∀ k i fuel, k < fuel →
      (∀ j, j < k → scan (i + j) = "" ∧ ¬ probe (i + j) = "open") →
      ¬ scan (i + k) = "" →
      ssh_wait scan probe fuel i =
        (some (Except.error
          ("Error detected in syslog traffic: " ++ scan (i + k))), k) := by
  intro k
  induction k with
  | zero =>
    intro i fuel hf hpre herr
    match fuel, hf with
    | f + 1, _ =>
      have herr0 : scan i ≠ "" := by simpa using herr
      simp only [ssh_wait]
      rw [if_pos herr0]
      simp
  | succ k ih =>
    intro i fuel hf hpre herr
    match fuel, hf with
    | f + 1, hf =>
      obtain ⟨hs0, hp0⟩ := hpre 0 (Nat.succ_pos k)
      have hs0i : scan i = "" := by simpa using hs0
      have hp0i : ¬ probe i = "open" := by simpa using hp0
      simp only [ssh_wait]
      rw [if_neg (by simp [hs0i]), if_neg hp0i]
      have hrec := ih (i + 1) f (Nat.lt_of_succ_lt_succ hf)
        (fun j hj => by
          have hpj := hpre (j + 1) (Nat.succ_lt_succ hj)
          rwa [show i + (j + 1) = i + 1 + j from by omega] at hpj)
        (by rwa [show i + (k + 1) = i + 1 + k from by omega] at herr)
      rw [hrec]
      simp [show i + 1 + k = i + (k + 1) from by omega]

/-- When every attempt of the machine-id lookup fails, no amount of fuel makes
the retry loop return. -/
theorem fetch_machine_id_retry_all_fail (lookup : Nat → Except String String)
    (hfail : ∀ j, ∃ e, lookup j = Except.error e) :
    ∀ fuel i, fetch_machine_id_retry lookup fuel i = none := by
  intro fuel
  induction fuel with
  | zero => intro i; rfl
  | succ f ih =>
    intro i
    obtain ⟨e, he⟩ := hfail i
    simp only [fetch_machine_id_retry, he]
    exact ih (i + 1)

/-- The machine-id retry loop returns the id of the first successful attempt:
with n failing attempts before a success at attempt i+n, the loop from i
returns that id. -/
theorem fetch_machine_id_retry_first_ok (lookup : Nat → Except String String) :
    ∀ n i, (∀ j, j < n → ∃ e, lookup (i + j) = Except.error e) →
      ∀ mid, lookup (i + n) = Except.ok mid →
      ∀ fuel, n < fuel → fetch_machine_id_retry lookup fuel i = some mid := by
  intro n
  induction n with
  | zero =>
    intro i hpre mid hn fuel hf
    match fuel, hf with
    | f + 1, _ =>
      have hn0 : lookup i = Except.ok mid := by simpa using hn
      simp only [fetch_machine_id_retry, hn0]
  | succ n ih =>
    intro i hpre mid hn fuel hf
    match fuel, hf with
    | f + 1, hf =>
      obtain ⟨e, he⟩ := hpre 0 (Nat.succ_pos n)
      have he0 : lookup i = Except.error e := by simpa using he
      simp only [fetch_machine_id_retry, he0]
      exact ih (i + 1)
        (fun j hj => by
          have hpj := hpre (j + 1) (Nat.succ_lt_succ hj)
          rwa [show i + (j + 1) = i + 1 + j from by omega] at hpj)
        mid (by rwa [show i + (n + 1) = i + 1 + n from by omega] at hn)
        f (Nat.lt_of_succ_lt_succ hf)

/-- Claim C1, counterexample. With three servers, tolerance 1 and two hosts
(beta and gamma) not powering up, deploy_nodes raises the fleet-level error
with message 2 hosts not powering up: the message names the total count of
failing hosts, not the excess over the tolerance (which is 1), and does not
name the failed hosts beta and gamma. -/
theorem deploy_nodes_error_message_detail :
    deploy_nodes_power_check [srvA, srvB, srvC] (fun a => a == "10.0.0.1") 1 =
      Except.error "2 hosts not powering up" ∧
    str_has_sub "2 hosts not powering up" "beta" = false ∧
    str_has_sub "2 hosts not powering up" "gamma" = false ∧
    str_has_sub "2 hosts not powering up" "1" = false := by
  exact ⟨by rfl, by decide, by decide, by decide⟩

/-- Claim C1, amended. The power-status check of deploy_nodes succeeds iff the
number of hosts not powering up is at most max_failing_nodes; otherwise
deploy_nodes raises an error whose message names the total count of hosts not
powering up; and whenever deploy_nodes returns an available-hosts set, that
set has at least len(servers) - max_failing_nodes entries. -/
theorem deploy_nodes_tolerance_check (servers : List Srv)
    (power_status : String → Bool) (rounds : Nat → List (String × String))
    (max_failing_nodes fuel : Nat) :
    (deploy_nodes_power_check servers power_status max_failing_nodes =
        Except.ok () ↔
      not_powering_up_count servers power_status ≤ max_failing_nodes) ∧
    (max_failing_nodes < not_powering_up_count servers power_status →
      deploy_nodes servers power_status rounds max_failing_nodes fuel =
        Except.error (toString (not_powering_up_count servers power_status)
          ++ " hosts not powering up")) ∧
    (∀ acc, deploy_nodes servers power_status rounds max_failing_nodes fuel =
        Except.ok (some acc) →
      servers.length - max_failing_nodes ≤ acc.length) := by
  refine ⟨⟨?_, ?_⟩, ?_, ?_⟩
  · intro h
    by_contra hgt
    push_neg at hgt
    unfold deploy_nodes_power_check at h
    rw [if_pos hgt] at h
    cases h
  · intro hle
    unfold deploy_nodes_power_check
    rw [if_neg (Nat.not_lt.mpr hle)]
  · intro hgt
    unfold deploy_nodes deploy_nodes_power_check
    rw [if_pos hgt]
  · intro acc h
    unfold deploy_nodes at h
    split at h
    · cases h
    · injection h with h2
      exact wait_go_some_length servers rounds max_failing_nodes fuel 0 [] acc h2

/-- Claim C1, witness for the amended theorem at a concrete fleet. -/
theorem deploy_nodes_tolerance_check_witness :
    deploy_nodes [srvA, srvB, srvC] (fun a => a == "10.0.0.1")
        rounds_empty 1 3 =
      Except.error "2 hosts not powering up" ∧
    deploy_nodes_power_check [srvA] (fun _ => true) 0 = Except.ok () := by
  constructor
  · exact ((deploy_nodes_tolerance_check [srvA, srvB, srvC]
      (fun a => a == "10.0.0.1") rounds_empty 1 3).2.1 (by decide)).trans rfl
  · exact (deploy_nodes_tolerance_check [srvA] (fun _ => true)
      rounds_empty 0 1).1.mpr (by decide)

/-- Claim C3. In the SSH wait loop of deploy_admin_node, when the first n
rounds scan no error and probe a closed port and round n scans a non-empty
error excerpt, the run fails at round n with the message built from that
excerpt, and exactly n port probes were performed: none in the failing round
and none after it. -/
theorem scan_error_fails_before_probe (scan probe : Nat → String)
    (n fuel : Nat) (hfuel : n < fuel)
    (hpre : ∀ j, j < n → scan j = "" ∧ ¬ probe j = "open")
    (herr : ¬ scan n = "") :
    ssh_wait scan probe fuel 0 =
      (some (Except.error
        ("Error detected in syslog traffic: " ++ scan n)), n) := by
  have h := ssh_wait_err scan probe n 0 fuel hfuel
    (fun j hj => by simpa using hpre j hj) (by simpa using herr)
  simpa using h

/-- Claim C3, witness: clean round 0 with a closed port, then an error excerpt
in round 1; the loop fails with that excerpt having probed exactly once. -/
theorem scan_error_fails_before_probe_witness :
    ssh_wait c3scan c3probe 5 0 =
      (some (Except.error "Error detected in syslog traffic: kernel panic"), 1) := by
  have h := scan_error_fails_before_probe c3scan c3probe 1 5 (by decide)
    (fun j hj => by
      have hj0 : j = 0 := by omega
      subst hj0
      exact ⟨rfl, by decide⟩)
    (by decide)
  exact h.trans (by rfl)

/-- Claim C4, code evaluation at the failing input. For server alpha whose
power status reads false after the power-on round, the loop at lines 570-574
issues a power_off command (while logging powering on again) and never issues
the power_on the log message announces; and the netboot arming round issues
exactly one attempt per server, with a failure only logged, never retried. -/
theorem power_on_again_issues_power_off :
    power_on_again_round [srvA] (fun _ => false) =
      [PowerCmd.powerOff "10.0.0.1"] ∧
    PowerCmd.powerOn "10.0.0.1" ∉ power_on_again_round [srvA] (fun _ => false) ∧
    netboot_round [srvA] = [PowerCmd.setOneTimeNetworkBoot "10.0.0.1"] := by
  exact ⟨by decide, by decide, by decide⟩

/-- Claim C5, counterexample. A reservation needing 4 hosts, with an empty
initial list and fresh locking returning a single host, does not abort:
fetch_servers_list returns the one locked host without any shortfall check. -/
theorem fetch_servers_list_empty_lock_unchecked :
    fetch_servers_list [] [rawA] 1 2 true true = Except.ok [toSrv rawA] := by
  rfl

/-- Claim C5, amended. When some hosts were already locked (non-empty initial
list) but fewer than 1 + master_count + worker_count, fetch_servers_list
raises before any power command is issued: the error propagates through
power_off_nodes, whose command trace is never produced. When the initial list
is empty, the freshly locked list is returned without any length check. -/
theorem fetch_servers_list_shortfall (initial locked : List RawServer)
    (master_count worker_count : Nat) (want_admin want_nodes : Bool)
    (power_status : String → Bool)
    (hne : initial ≠ [])
    (hlt : initial.length < 1 + master_count + worker_count) :
    fetch_servers_list initial locked master_count worker_count
        want_admin want_nodes =
      Except.error ("Only " ++ toString initial.length ++ " servers are locked") ∧
    power_off_nodes
        (fetch_servers_list initial locked master_count worker_count
          want_admin want_nodes) power_status =
      Except.error ("Only " ++ toString initial.length ++ " servers are locked") ∧
    fetch_servers_list [] locked master_count worker_count true true =
      Except.ok (locked.map toSrv) := by
  have h1 : fetch_servers_list initial locked master_count worker_count
      want_admin want_nodes =
      Except.error ("Only " ++ toString initial.length ++ " servers are locked") := by
    unfold fetch_servers_list
    rw [if_neg (by simpa using hne), if_pos hlt]
  refine ⟨h1, ?_, ?_⟩
  · rw [h1]
    rfl
  · rfl

/-- Claim C5, witness: two locked hosts when four are needed. -/
theorem fetch_servers_list_shortfall_witness :
    fetch_servers_list [rawA, rawB] [] 1 2 false true =
      Except.error "Only 2 servers are locked" ∧
    power_off_nodes (fetch_servers_list [rawA, rawB] [] 1 2 false true)
        (fun _ => true) =
      Except.error "Only 2 servers are locked" := by
  have h := fetch_servers_list_shortfall [rawA, rawB] [] 1 2 false true
    (fun _ => true) (by decide) (by decide)
  exact ⟨h.1.trans rfl, h.2.1.trans rfl⟩

/-- Claim C6, counterexample. With a machine-id lookup failing on every
attempt, the retry loop of generate_environment_json never terminates: no
fuel makes it return, so there is no bounded retry count, no demotion to
Failed and no tolerance re-check. -/
theorem fetch_machine_id_retry_never_terminates :
    ¬ fetch_machine_id_terminates failing_lookup := by
  rintro ⟨fuel, hsome⟩
  rw [fetch_machine_id_retry_all_fail failing_lookup
    (fun j => ⟨"port 22: Connection timed out", rfl⟩) fuel 0] at hsome
  simp at hsome

/-- Claim C6, amended. The machine-id lookup is retried with a 10-second
sleep and no bound: after any number n of failing attempts, the first
successful attempt ends the loop with its machine id; a host whose lookup
never succeeds keeps the loop from terminating (see the counterexample), and
is never demoted, excluded, or charged against the tolerance. -/
theorem fetch_machine_id_retry_unbounded (lookup : Nat → Except String String)
    (n : Nat) (mid : String)
    (hpre : ∀ j, j < n → ∃ e, lookup j = Except.error e)
    (hn : lookup n = Except.ok mid) :
    ∀ fuel, n < fuel → fetch_machine_id_retry lookup fuel 0 = some mid := by
  intro fuel hf
  exact fetch_machine_id_retry_first_ok lookup n 0
    (fun j hj => by simpa using hpre j hj) mid (by simpa using hn) fuel hf

/-- Claim C6, witness: one transient failure, then success at attempt 1. -/
theorem fetch_machine_id_retry_unbounded_witness :
    fetch_machine_id_retry flaky_lookup 3 0 = some "mid-42" :=
  fetch_machine_id_retry_unbounded flaky_lookup 1 "mid-42"
    (fun j hj => ⟨"port 22: No route to host", by
      have hj0 : j = 0 := by omega
      subst hj0
      rfl⟩)
    (by rfl) 3 (by decide)

/-- Claim C7, counterexample. With servers alpha and beta, tolerance 0 and
DHCP windows that bind mac1 to ip1 in round 0 and to ip2 from round 1 on,
wait_dhcp_acks returns a set holding two distinct tuples for the same
hardware address mac1: the earlier observation is not overwritten, and the
loop even breaks counting both against the threshold of 2 although beta
never acquired an address. -/
theorem wait_dhcp_acks_duplicate_mac :
    wait_dhcp_acks [srvA, srvB] c7rounds 0 5 =
      some [⟨"alpha", "sA", "mac1", "ip1"⟩, ⟨"alpha", "sA", "mac1", "ip2"⟩] ∧
    (⟨"alpha", "sA", "mac1", "ip1"⟩ : AckHost).macaddr =
      (⟨"alpha", "sA", "mac1", "ip2"⟩ : AckHost).macaddr ∧
    (⟨"alpha", "sA", "mac1", "ip1"⟩ : AckHost) ≠
      ⟨"alpha", "sA", "mac1", "ip2"⟩ := by
  exact ⟨by decide, rfl, by decide⟩

/-- Claim C7, amended. Each fetched DHCP window maps a hardware address to at
most one network address (dictionary lookup), and a polling round inserts the
tuple of every server whose mac address resolves in that window while
retaining every tuple already accumulated: a later different address for the
same hardware address adds a second tuple instead of overwriting the first. -/
theorem round_update_adds_and_retains (servers : List Srv)
    (e : List (String × String)) (avail : List AckHost) (s : Srv) (ip : String)
    (hs : s ∈ servers) (hl : e.lookup s.eth0_macaddr = some ip) :
    (⟨s.name, s.serial, s.eth0_macaddr, ip⟩ : AckHost) ∈
      round_update servers e avail ∧
    ∀ h ∈ avail, h ∈ round_update servers e avail :=
  ⟨round_update_adds servers e avail s ip hs hl,
   fun h hm => mem_round_update servers e avail h hm⟩

/-- Claim C7, witness: a round rebinding mac1 to ip2 adds the new tuple and
keeps the ip1 tuple. -/
theorem round_update_adds_and_retains_witness :
    (⟨"alpha", "sA", "mac1", "ip2"⟩ : AckHost) ∈
      round_update [srvA] [("mac1", "ip2")] [⟨"alpha", "sA", "mac1", "ip1"⟩] ∧
    (⟨"alpha", "sA", "mac1", "ip1"⟩ : AckHost) ∈
      round_update [srvA] [("mac1", "ip2")] [⟨"alpha", "sA", "mac1", "ip1"⟩] := by
  have h := round_update_adds_and_retains [srvA] [("mac1", "ip2")]
    [⟨"alpha", "sA", "mac1", "ip1"⟩] srvA "ip2" (by decide) (by decide)
  exact ⟨h.1, h.2 _ (by decide)⟩

/-- Claim C8. The accumulated available-hosts set of wait_dhcp_acks only
grows: a tuple present after n polling rounds is present after every later
number of rounds; no entry is ever removed or reverted to absent. -/
theorem acc_after_monotone (servers : List Srv)
    (rounds : Nat → List (String × String)) (n m : Nat) (hnm : n ≤ m)
    (h : AckHost) (hmem : h ∈ acc_after servers rounds n) :
    h ∈ acc_after servers rounds m := by
  induction hnm with
  | refl => exact hmem
  | step _ ih => exact mem_round_update _ _ _ _ ih

/-- Claim C8, witness: the tuple observed in round 0 is still present after
three rounds, although later rounds rebinding mac1 to ip2 occurred. -/
theorem acc_after_monotone_witness :
    (⟨"alpha", "sA", "mac1", "ip1"⟩ : AckHost) ∈
      acc_after [srvA, srvB] c7rounds 3 :=
  acc_after_monotone [srvA, srvB] c7rounds 1 3 (by decide)
    ⟨"alpha", "sA", "mac1", "ip1"⟩ (by decide)

/-- Claim C9, counterexample. After the admin host became reachable, a
failure while fetching its post-boot syslog makes deploy_admin_node raise
instead of returning the resolved address: fetch_and_write_syslog_logs has no
handler, so the error propagates and the run does not stay successful. -/
theorem deploy_admin_node_syslog_failure_not_ok :
    deploy_admin_node_finish "10.84.44.10"
        (Except.error "testbed daemon socket timeout")
        (fun _ => Except.ok ()) =
      Except.error "testbed daemon socket timeout" ∧
    deploy_admin_node_finish "10.84.44.10"
        (Except.error "testbed daemon socket timeout")
        (fun _ => Except.ok ()) ≠
      Except.ok "10.84.44.10" := by
  refine ⟨rfl, ?_⟩
  intro h
  cases h

/-- Claim C9, amended. A failure while fetching or persisting the post-boot
syslog propagates: deploy_admin_node raises the same error instead of
returning the resolved address, and only when both the fetch and the write
succeed does it return the address. -/
theorem deploy_admin_node_syslog_propagation (ipaddr : String)
    (fetched : Except String String)
    (writeFile : String → Except String Unit) :
    (∀ e, fetched = Except.error e →
      deploy_admin_node_finish ipaddr fetched writeFile = Except.error e) ∧
    (∀ logs e, fetched = Except.ok logs → writeFile logs = Except.error e →
      deploy_admin_node_finish ipaddr fetched writeFile = Except.error e) ∧
    (∀ logs, fetched = Except.ok logs → writeFile logs = Except.ok () →
      deploy_admin_node_finish ipaddr fetched writeFile = Except.ok ipaddr) := by
  refine ⟨?_, ?_, ?_⟩
  · intro e he
    simp [deploy_admin_node_finish, fetch_and_write_syslog_logs, he]
  · intro logs e h1 h2
    simp [deploy_admin_node_finish, fetch_and_write_syslog_logs, h1, h2]
  · intro logs h1 h2
    simp [deploy_admin_node_finish, fetch_and_write_syslog_logs, h1, h2]

/-- Claim C9, witness: a fetched syslog whose write to disk fails makes the
deployment raise that failure. -/
theorem deploy_admin_node_syslog_propagation_witness :
    deploy_admin_node_finish "10.84.44.10" (Except.ok "syslog data")
        (fun _ => Except.error "No space left on device") =
      Except.error "No space left on device" :=
  (deploy_admin_node_syslog_propagation "10.84.44.10" (Except.ok "syslog data")
    (fun _ => Except.error "No space left on device")).2.1 "syslog data"
    "No space left on device" rfl rfl

/-- Claim C10, counterexample. The slicing behaviour does not hold for every
non-empty backend list: a single pre-locked server when 1 + 1 + 2 are needed
makes fetch_servers_list raise the shortfall error instead of returning the
first entry, even with want_admin true and want_nodes false. -/
theorem fetch_servers_list_short_list_raises :
    fetch_servers_list [rawA] [] 1 2 true false =
      Except.error "Only 1 servers are locked" ∧
    fetch_servers_list [rawA] [] 1 2 true false ≠ Except.ok [toSrv rawA] := by
  refine ⟨rfl, ?_⟩
  intro h
  cases h

/-- Claim C10, amended. With a non-empty backend list that passes the
availability check (at least 1 + master_count + worker_count entries),
fetch_servers_list treats the first entry as the admin host: want_admin alone
returns exactly the first entry, want_nodes alone returns exactly all entries
except the first, and both flags false is rejected by the assert; a non-empty
list shorter than the requirement instead raises the shortfall error. -/
theorem fetch_servers_list_role_slicing (s : RawServer)
    (rest locked : List RawServer) (master_count worker_count : Nat) :
    (1 + master_count + worker_count ≤ (s :: rest).length →
      fetch_servers_list (s :: rest) locked master_count worker_count
          true false =
        Except.ok [toSrv s] ∧
      fetch_servers_list (s :: rest) locked master_count worker_count
          false true =
        Except.ok (rest.map toSrv) ∧
      fetch_servers_list (s :: rest) locked master_count worker_count
          false false =
        Except.error "AssertionError: want_admin or want_nodes") ∧
    ((s :: rest).length < 1 + master_count + worker_count →
      ∀ want_admin want_nodes,
        fetch_servers_list (s :: rest) locked master_count worker_count
            want_admin want_nodes =
          Except.error ("Only " ++ toString (s :: rest).length
            ++ " servers are locked")) := by
  constructor
  · intro hlen
    have hnl : ¬ (s :: rest).length < 1 + master_count + worker_count :=
      Nat.not_lt.mpr hlen
    unfold fetch_servers_list
    rw [if_neg (by simp : ¬ (s :: rest).length = 0), if_neg hnl]
    refine ⟨?_, ?_, ?_⟩ <;> simp
  · intro hlt want_admin want_nodes
    unfold fetch_servers_list
    rw [if_neg (by simp : ¬ (s :: rest).length = 0), if_pos hlt]

/-- Claim C10, witness: a concrete two-server list above the threshold and a
concrete one-server list below it. -/
theorem fetch_servers_list_role_slicing_witness :
    fetch_servers_list [rawA, rawB] [] 1 0 true false = Except.ok [toSrv rawA] ∧
    fetch_servers_list [rawA, rawB] [] 1 0 false true = Except.ok [toSrv rawB] ∧
    fetch_servers_list [rawA, rawB] [] 1 0 false false =
      Except.error "AssertionError: want_admin or want_nodes" ∧
    fetch_servers_list [rawB] [] 1 2 false true =
      Except.error "Only 1 servers are locked" := by
  have h := (fetch_servers_list_role_slicing rawA [rawB] [] 1 0).1 (by decide)
  have h2 := (fetch_servers_list_role_slicing rawB [] [] 1 2).2 (by decide)
    false true
  exact ⟨h.1, h.2.1, h.2.2, h2.trans rfl⟩

end DeployTestbed
